import Mathlib

/-!
Verification of the two core calculation functions of the landslide
use-case repository (`utils.py`): `cal_subsurface_flow_depth`, which
aggregates a stack of per-layer volumetric soil-moisture rasters into a
subsurface flow-depth raster, and `cal_safety_factor`, which evaluates
the infinite-slope factor-of-safety formula.

A raster over a fixed spatial grid is embedded as a function `Cell → ℚ`
(or `Cell → ℝ` for the trigonometric safety-factor formula), where
`Cell` is the type of grid cells; all numpy operations in the source are
elementwise over the shared grid, so they become pointwise operations on
these functions.  The Python list `layer_threshold` stays a Lean list,
and its indexing (`layer_threshold[i + 1]`, which can raise an
IndexError in Python) is embedded fallibly through `Option`.
-/

/-- Per-cell body of the loop of `cal_subsurface_flow_depth`
(`utils.py` lines 48–51), applied to the soil-depth value `d` of one
cell for the layer with lower threshold `tLo` and upper threshold
`tHi`: first every value at or above `tHi` is replaced by `tHi`, then
every (updated) value at or below `tLo` is replaced by `tLo`, and
finally `tLo` is subtracted. -/
def soilLayer (tLo tHi d : ℚ) : ℚ :=
  let d1 := if tHi ≤ d then tHi else d
  let d2 := if d1 ≤ tLo then tLo else d1
  d2 - tLo

/-- The raster of per-cell layer thicknesses for one layer: the loop
body of `cal_subsurface_flow_depth` applied to the whole soil-depth
raster. -/
def layerThicknessRaster {Cell : Type} (tLo tHi : ℚ) (soil_depth : Cell → ℚ) :
    Cell → ℚ :=
  fun c => soilLayer tLo tHi (soil_depth c)

/-- The loop of `cal_subsurface_flow_depth` (`utils.py` lines 47–52):
for each layer `i` of the moisture stack it reads
`layer_threshold[i + 1]` and `layer_threshold[i]` and produces the
layer-thickness raster; an out-of-range index (Python IndexError) makes
the whole computation fail, embedded as `none`.  The moisture stack
itself only drives the iteration count, exactly like
`range(0, len(soil_water_layer))` in the source. -/
def soilDepthLayers {Cell : Type} (soil_depth : Cell → ℚ) (layer_threshold : List ℚ) :
    Nat → List (Cell → ℚ) → Option (List (Cell → ℚ))
  | _, [] => some []
  | i, _ :: rest =>
    match layer_threshold[i + 1]?, layer_threshold[i]? with
    | some tHi, some tLo =>
      (soilDepthLayers soil_depth layer_threshold (i + 1) rest).map
        (fun ls => layerThicknessRaster tLo tHi soil_depth :: ls)
    | _, _ => none

/-- Embedding of `cal_subsurface_flow_depth` (`utils.py` lines 43–58):
per-layer thickness rasters are computed by the loop, each layer's
thickness raster is multiplied cellwise by its moisture raster and
divided by the porosity, and the per-layer water depths are summed over
the layer axis (`np.sum(water_depth_layer, axis=0)`). -/
def cal_subsurface_flow_depth {Cell : Type} (soil_depth : Cell → ℚ)
    (soil_water_layer : List (Cell → ℚ)) (layer_threshold : List ℚ)
    (porosity : ℚ) : Option (Cell → ℚ) :=
  (soilDepthLayers soil_depth layer_threshold 0 soil_water_layer).map
    (fun soil_depth_layer =>
      let water_depth_layer :=
        List.zipWith (fun w t c => w c * t c / porosity) soil_water_layer soil_depth_layer
      fun c => (water_depth_layer.map (fun l => l c)).sum)

/-- Embedding of `cal_safety_factor` (`utils.py` lines 62–84), the
infinite-slope stability model, evaluated cellwise over real-valued
rasters; the scalar material parameters are passed explicitly (the
Python defaults are 5000, 5000, 1300, 1000, 9.806 and 35). -/
noncomputable def cal_safety_factor {Cell : Type}
    (slope_angle subsurface_flow_depth soil_depth : Cell → ℝ)
    (root_cohesion soil_cohesion soil_bulk_density water_density
      gravity_acceleration soil_internal_friction_angle : ℝ) : Cell → ℝ :=
  fun c =>
    let tan_fi := Real.tan (soil_internal_friction_angle * Real.pi / 180)
    let relative_wetness := subsurface_flow_depth c / soil_depth c
    let left_term := (root_cohesion + soil_cohesion) /
      (soil_depth c * soil_bulk_density * gravity_acceleration) / Real.sin (slope_angle c)
    let right_term := Real.cos (slope_angle c) * tan_fi *
      (1 - relative_wetness * water_density / soil_bulk_density) / Real.sin (slope_angle c)
    left_term + right_term

/-- A cell whose soil depth is at or below the lower threshold gets layer
thickness zero. -/
lemma soilLayer_of_le {tLo d : ℚ} (tHi : ℚ) (h : d ≤ tLo) :
    soilLayer tLo tHi d = 0 := by
  simp only [soilLayer]
  split_ifs <;> linarith

/-- A cell whose soil depth is at or above the upper threshold gets the
full bracket width as layer thickness. -/
lemma soilLayer_of_ge {tLo tHi d : ℚ} (h : tHi ≤ d) (h2 : tLo ≤ tHi) :
    soilLayer tLo tHi d = tHi - tLo := by
  simp only [soilLayer]
  split_ifs <;> linarith

/-- The per-cell layer thickness is non-negative whenever the bracket is
ordered. -/
lemma soilLayer_nonneg {tLo tHi : ℚ} (d : ℚ) (h : tLo ≤ tHi) :
    0 ≤ soilLayer tLo tHi d := by
  simp only [soilLayer]
  split_ifs <;> linarith

/-- The per-cell layer thickness never exceeds the bracket width. -/
lemma soilLayer_le {tLo tHi : ℚ} (d : ℚ) (h : tLo ≤ tHi) :
    soilLayer tLo tHi d ≤ tHi - tLo := by
  simp only [soilLayer]
  split_ifs <;> linarith

/-- Closed form of the clipping steps: for an ordered bracket the layer
thickness is the difference of the clamped depths `min d tHi - min d tLo`. -/
lemma soilLayer_eq_min {tLo tHi : ℚ} (d : ℚ) (h : tLo ≤ tHi) :
    soilLayer tLo tHi d = min d tHi - min d tLo := by
  simp only [soilLayer, min_def]
  split_ifs <;> linarith

/-- In a strictly increasing list, entries found at increasing positions
are increasing. -/
lemma pairwise_lt_of_getElem? {ts : List ℚ} (h : ts.Pairwise (· < ·))
    {i j : Nat} {a b : ℚ} (ha : ts[i]? = some a) (hb : ts[j]? = some b)
    (hij : i < j) : a < b := by
  rw [List.getElem?_eq_some] at ha hb
  obtain ⟨hi, rfl⟩ := ha
  obtain ⟨hj, rfl⟩ := hb
  exact List.pairwise_iff_getElem.mp h i j hi hj hij

/-- The loop of `cal_subsurface_flow_depth` produces one thickness
raster per moisture layer. -/
lemma soilDepthLayers_length {Cell : Type} (d : Cell → ℚ) (ts : List ℚ) :
    ∀ (stack : List (Cell → ℚ)) (i : Nat) (ls : List (Cell → ℚ)),
      soilDepthLayers d ts i stack = some ls → ls.length = stack.length := by
  intro stack
  induction stack with
  | nil => intro i ls h; simp [soilDepthLayers] at h; simp [← h]
  | cons w rest ih =>
    intro i ls h
    cases h1 : ts[i + 1]? with
    | none => simp [soilDepthLayers, h1] at h
    | some tHi =>
      cases h2 : ts[i]? with
      | none => simp [soilDepthLayers, h1, h2] at h
      | some tLo =>
        simp only [soilDepthLayers, h1, h2] at h
        cases h3 : soilDepthLayers d ts (i + 1) rest with
        | none => rw [h3] at h; simp at h
        | some ls' =>
          rw [h3] at h
          simp only [Option.map_some', Option.some.injEq] at h
          simp [← h, ih (i + 1) ls' h3]

/-- The loop succeeds whenever every threshold index it touches is in
range. -/
lemma soilDepthLayers_isSome {Cell : Type} (d : Cell → ℚ) (ts : List ℚ) :
    ∀ (stack : List (Cell → ℚ)) (i : Nat), i + stack.length + 1 ≤ ts.length →
      (soilDepthLayers d ts i stack).isSome = true := by
  intro stack
  induction stack with
  | nil => intro i _; simp [soilDepthLayers]
  | cons w rest ih =>
    intro i hi
    simp only [List.length_cons] at hi
    have h1 : ts[i + 1]? = some ts[i + 1] := List.getElem?_eq_getElem (by omega)
    have h2 : ts[i]? = some ts[i] := List.getElem?_eq_getElem (by omega)
    have h3 := ih (i + 1) (by omega)
    simp only [soilDepthLayers, h1, h2, Option.isSome_map']
    exact h3

/-- The loop never fails to produce some result when it produces one,
and every produced thickness raster is cellwise non-negative, provided
the thresholds are strictly increasing. -/
lemma soilDepthLayers_nonneg {Cell : Type} (d : Cell → ℚ) {ts : List ℚ}
    (hts : ts.Pairwise (· < ·)) :
    ∀ (stack : List (Cell → ℚ)) (i : Nat) (ls : List (Cell → ℚ)),
      soilDepthLayers d ts i stack = some ls → ∀ t ∈ ls, ∀ c, 0 ≤ t c := by
  intro stack
  induction stack with
  | nil =>
    intro i ls h
    simp only [soilDepthLayers, Option.some.injEq] at h
    subst h
    simp
  | cons w rest ih =>
    intro i ls h
    cases h1 : ts[i + 1]? with
    | none => simp [soilDepthLayers, h1] at h
    | some tHi =>
      cases h2 : ts[i]? with
      | none => simp [soilDepthLayers, h1, h2] at h
      | some tLo =>
        simp only [soilDepthLayers, h1, h2] at h
        cases h3 : soilDepthLayers d ts (i + 1) rest with
        | none => rw [h3] at h; simp at h
        | some ls' =>
          rw [h3] at h
          simp only [Option.map_some', Option.some.injEq] at h
          have hlt : tLo < tHi := pairwise_lt_of_getElem? hts h2 h1 (by omega)
          intro t ht c
          rw [← h] at ht
          rcases List.mem_cons.mp ht with rfl | ht'
          · exact soilLayer_nonneg (d c) hlt.le
          · exact ih (i + 1) ls' h3 t ht' c

/-- The loop result depends on the moisture stack only through its
length. -/
lemma soilDepthLayers_congr {Cell : Type} (d : Cell → ℚ) (ts : List ℚ) :
    ∀ (s1 s2 : List (Cell → ℚ)) (i : Nat), s1.length = s2.length →
      soilDepthLayers d ts i s1 = soilDepthLayers d ts i s2 := by
  intro s1
  induction s1 with
  | nil => intro s2 i h; cases s2 <;> simp_all
  | cons w rest ih =>
    intro s2 i h
    cases s2 with
    | nil => simp at h
    | cons w' rest' =>
      simp only [List.length_cons, Nat.add_right_cancel_iff] at h
      simp only [soilDepthLayers, ih rest' (i + 1) h]

/-- The summed per-layer water depth at a cell is non-negative when the
moisture values and layer thicknesses are non-negative and the porosity
is positive. -/
lemma water_sum_nonneg {Cell : Type} (p : ℚ) (hp : 0 < p) :
    ∀ (stack ls : List (Cell → ℚ)),
      (∀ w ∈ stack, ∀ c, 0 ≤ w c) → (∀ t ∈ ls, ∀ c, 0 ≤ t c) →
      ∀ c, 0 ≤ ((List.zipWith (fun w t c => w c * t c / p) stack ls).map
        (fun l => l c)).sum := by
  intro stack
  induction stack with
  | nil => intro ls _ _ c; simp
  | cons w rest ih =>
    intro ls hw ht c
    cases ls with
    | nil => simp
    | cons t ls' =>
      simp only [List.zipWith_cons_cons, List.map_cons, List.sum_cons]
      have h1 : 0 ≤ w c * t c / p :=
        div_nonneg (mul_nonneg (hw w (by simp) c) (ht t (by simp) c)) hp.le
      have h2 := ih ls' (fun w' hw' => hw w' (by simp [hw'])) (fun t' ht' => ht t' (by simp [ht'])) c
      linarith

/-- Telescoping bound: with unit porosity and moisture values in
`[0, 1]`, the summed water depth of the layers from index `i` on is at
most `d c - min (d c) tLo`, where `tLo` is threshold `i`. -/
lemma water_sum_le {Cell : Type} (d : Cell → ℚ) {ts : List ℚ}
    (hts : ts.Pairwise (· < ·)) :
    ∀ (stack ls : List (Cell → ℚ)) (i : Nat) (tLo : ℚ),
      ts[i]? = some tLo →
      (∀ w ∈ stack, ∀ c, 0 ≤ w c) → (∀ w ∈ stack, ∀ c, w c ≤ 1) →
      soilDepthLayers d ts i stack = some ls →
      ∀ c, ((List.zipWith (fun w t c => w c * t c) stack ls).map
        (fun l => l c)).sum ≤ d c - min (d c) tLo := by
  intro stack
  induction stack with
  | nil =>
    intro ls i tLo _ _ _ h c
    simp only [soilDepthLayers, Option.some.injEq] at h
    subst h
    simpa [sub_nonneg] using min_le_left (d c) tLo
  | cons w rest ih =>
    intro ls i tLo hLo hw0 hw1 h c
    cases h1 : ts[i + 1]? with
    | none => simp [soilDepthLayers, h1] at h
    | some tHi =>
      simp only [soilDepthLayers, h1, hLo] at h
      cases h3 : soilDepthLayers d ts (i + 1) rest with
      | none => rw [h3] at h; simp at h
      | some ls' =>
        rw [h3] at h
        simp only [Option.map_some', Option.some.injEq] at h
        have hlt : tLo < tHi := pairwise_lt_of_getElem? hts hLo h1 (by omega)
        have hrest := ih ls' (i + 1) tHi h1
          (fun w' hw' => hw0 w' (by simp [hw'])) (fun w' hw' => hw1 w' (by simp [hw'])) h3 c
        rw [← h]
        simp only [List.zipWith_cons_cons, List.map_cons, List.sum_cons]
        have hthick : soilLayer tLo tHi (d c) = min (d c) tHi - min (d c) tLo :=
          soilLayer_eq_min (d c) hlt.le
        have hterm : w c * soilLayer tLo tHi (d c) ≤ soilLayer tLo tHi (d c) := by
          have hnn : 0 ≤ soilLayer tLo tHi (d c) := soilLayer_nonneg (d c) hlt.le
          nlinarith [hw0 w (by simp) c, hw1 w (by simp) c]
        have : (fun cc => w cc * soilLayer tLo tHi (d cc)) c
            = w c * soilLayer tLo tHi (d c) := rfl
        simp only [layerThicknessRaster]
        linarith [hrest, hterm, hthick.le, hthick.ge]

/-- Raising one moisture layer pointwise raises each per-layer water
depth, holding the thickness rasters fixed. -/
lemma water_sum_mono {Cell : Type} (p : ℚ) (hp : 0 < p) :
    ∀ (s1 s2 ls : List (Cell → ℚ)),
      List.Forall₂ (fun w w' => ∀ c, w c ≤ w' c) s1 s2 →
      (∀ t ∈ ls, ∀ c, 0 ≤ t c) →
      ∀ c, ((List.zipWith (fun w t c => w c * t c / p) s1 ls).map (fun l => l c)).sum
          ≤ ((List.zipWith (fun w t c => w c * t c / p) s2 ls).map (fun l => l c)).sum := by
  intro s1 s2 ls hf
  induction hf generalizing ls with
  | nil => intro _ _; simp
  | @cons w w' r1 r2 hww hf ih =>
    intro ht c
    cases ls with
    | nil => simp
    | cons t ls' =>
      simp only [List.zipWith_cons_cons, List.map_cons, List.sum_cons]
      have h1 : w c * t c / p ≤ w' c * t c / p := by
        rw [div_le_div_iff_of_pos_right hp]
        exact mul_le_mul_of_nonneg_right (hww c) (ht t (by simp) c)
      have h2 := ih ls' (fun t' ht' => ht t' (List.mem_cons_of_mem t ht')) c
      linarith

/-- The pointwise order between two moisture stacks that agree except on
one layer, where the second dominates the first. -/
lemma forall₂_pointwise_append {Cell : Type} (pre post : List (Cell → ℚ))
    (m m' : Cell → ℚ) (hm : ∀ c, m c ≤ m' c) :
    List.Forall₂ (fun w w' => ∀ c, w c ≤ w' c) (pre ++ m :: post) (pre ++ m' :: post) := by
  induction pre with
  | nil => exact List.Forall₂.cons hm (List.forall₂_same.mpr fun x _ c => le_refl (x c))
  | cons w rest ih => exact List.Forall₂.cons (fun c => le_refl (w c)) ih

/-- Claim C2: for a single cell with soil depth 1, a single-layer
moisture stack `[0.2]` whose layer covers depth 0 to 1 (thresholds
`[0, 1]`), and porosity 0.5, `cal_subsurface_flow_depth` returns exactly
`(1 * 0.2) / 0.5 = 0.4`. -/
theorem claim_C2_worked_flow_depth :
    (cal_subsurface_flow_depth (fun _ : Unit => 1) [fun _ => 1/5] [0, 1]
      (1/2)).map (fun r => r ()) = some (2/5) := by
  norm_num [cal_subsurface_flow_depth, soilDepthLayers, layerThicknessRaster, soilLayer]

/-- Claim C3: for any strictly increasing consecutive thresholds
`tLo < tHi < tHi2`, a cell whose soil depth equals exactly `tHi` gets
the full bracket width `tHi - tLo` as the thickness of the lower layer
and zero as the thickness of the upper layer (the boundary belongs to
the lower layer); in particular, with thresholds `[0, 1, 2]` and soil
depth 1, the loop of `cal_subsurface_flow_depth` computes thickness
rasters whose cell values are 1 for layer 0 and 0 for layer 1. -/
theorem claim_C3_boundary_tie_break (tLo tHi tHi2 : ℚ) (h1 : tLo < tHi)
    (h2 : tHi < tHi2) :
    (soilLayer tLo tHi tHi = tHi - tLo ∧ soilLayer tHi tHi2 tHi = 0) ∧
    (soilDepthLayers (fun _ : Unit => 1) [0, 1, 2] 0 [fun _ => 0, fun _ => 0]).map
      (fun ls => ls.map (fun r => r ())) = some [1, 0] := by
  refine ⟨⟨soilLayer_of_ge le_rfl h1.le, soilLayer_of_le tHi2 le_rfl⟩, ?_⟩
  norm_num [soilDepthLayers, layerThicknessRaster, soilLayer]

/-- Witness for claim C3 at the concrete input of the claim: thresholds
`[0, 1, 2]` and soil depth exactly 1. -/
theorem claim_C3_witness :
    soilLayer 0 1 1 = 1 - 0 ∧ soilLayer 1 2 1 = 0 :=
  (claim_C3_boundary_tie_break 0 1 2 (by norm_num) (by norm_num)).1

/-- Claim C7: for every ordered bracket `tLo < tHi` and every soil-depth
value `d`, the computed layer thickness lies in `[0, tHi - tLo]`; it is
0 when `d` is at or below `tLo` and saturates at the full bracket width
when `d` is at or above `tHi`. -/
theorem claim_C7_layer_thickness_bounds (tLo tHi d : ℚ) (h : tLo < tHi) :
    (0 ≤ soilLayer tLo tHi d ∧ soilLayer tLo tHi d ≤ tHi - tLo) ∧
    (d ≤ tLo → soilLayer tLo tHi d = 0) ∧
    (tHi ≤ d → soilLayer tLo tHi d = tHi - tLo) :=
  ⟨⟨soilLayer_nonneg d h.le, soilLayer_le d h.le⟩,
    fun hd => soilLayer_of_le tHi hd,
    fun hd => soilLayer_of_ge hd h.le⟩

/-- Witness for claim C7 at the concrete bracket `[0, 1]` with soil
depth 5. -/
theorem claim_C7_witness :
    ((0:ℚ) ≤ soilLayer 0 1 5 ∧ soilLayer 0 1 5 ≤ 1 - 0) ∧
    ((5:ℚ) ≤ 0 → soilLayer 0 1 5 = 0) ∧
    ((1:ℚ) ≤ 5 → soilLayer 0 1 5 = 1 - 0) :=
  claim_C7_layer_thickness_bounds 0 1 5 (by norm_num)

/-- Claim C4: for strictly increasing thresholds starting at 0,
per-layer moisture in `[0, 1]`, positive porosity, and non-negative soil
depth, every cell of the raster returned by
`cal_subsurface_flow_depth` is non-negative, and when the porosity is 1
the value at each cell is bounded above by that cell's soil depth. -/
theorem claim_C4_flow_invariants {Cell : Type} (soil_depth : Cell → ℚ)
    (stack : List (Cell → ℚ)) (ts : List ℚ) (p : ℚ)
    (hts : ts.Pairwise (· < ·)) (h0 : ts[0]? = some 0)
    (hm0 : ∀ w ∈ stack, ∀ c, 0 ≤ w c) (hm1 : ∀ w ∈ stack, ∀ c, w c ≤ 1)
    (hp : 0 < p) (hd : ∀ c, 0 ≤ soil_depth c) :
    ∀ (c : Cell) (x : ℚ),
      (cal_subsurface_flow_depth soil_depth stack ts p).map (fun r => r c) = some x →
      0 ≤ x ∧ (p = 1 → x ≤ soil_depth c) := by
  intro c x hx
  cases hls : soilDepthLayers soil_depth ts 0 stack with
  | none => rw [cal_subsurface_flow_depth, hls] at hx; simp at hx
  | some ls =>
    rw [cal_subsurface_flow_depth, hls] at hx
    simp only [Option.map_some', Option.some.injEq] at hx
    subst hx
    constructor
    · exact water_sum_nonneg p hp stack ls hm0
        (soilDepthLayers_nonneg soil_depth hts stack 0 ls hls) c
    · intro hp1
      subst hp1
      have key := water_sum_le soil_depth hts stack ls 0 0 h0 hm0 hm1 hls c
      rw [min_eq_right (hd c), sub_zero] at key
      simpa [div_one] using key

/-- Witness for claim C4 at a concrete input: single cell, soil depth 1,
moisture stack `[0.2]`, thresholds `[0, 1]`, porosity 1. -/
theorem claim_C4_witness :
    (0:ℚ) ≤ 1/5 ∧ ((1:ℚ) = 1 → (1:ℚ)/5 ≤ (fun _ : Unit => (1:ℚ)) ()) :=
  claim_C4_flow_invariants (fun _ : Unit => 1) [fun _ => 1/5] [0, 1] 1
    (by norm_num) rfl
    (by intro w hw c; rcases List.mem_singleton.mp hw with rfl; norm_num)
    (by intro w hw c; rcases List.mem_singleton.mp hw with rfl; norm_num)
    one_pos (fun c => by norm_num) () (1/5)
    (by norm_num [cal_subsurface_flow_depth, soilDepthLayers, layerThicknessRaster, soilLayer])

/-- Claim C8: for strictly increasing thresholds and positive porosity,
the flow depth at each cell is monotonically non-decreasing in any
single layer's moisture: raising the moisture of one layer pointwise,
holding soil depth, the other layers, the thresholds and the porosity
fixed, never decreases any output cell. -/
theorem claim_C8_flow_monotone_in_moisture {Cell : Type} (soil_depth : Cell → ℚ)
    (pre post : List (Cell → ℚ)) (m m' : Cell → ℚ) (ts : List ℚ) (p : ℚ)
    (hts : ts.Pairwise (· < ·)) (hp : 0 < p) (hm : ∀ c, m c ≤ m' c) :
    ∀ (c : Cell) (x x' : ℚ),
      (cal_subsurface_flow_depth soil_depth (pre ++ m :: post) ts p).map
        (fun r => r c) = some x →
      (cal_subsurface_flow_depth soil_depth (pre ++ m' :: post) ts p).map
        (fun r => r c) = some x' →
      x ≤ x' := by
  intro c x x' hx hx'
  have hcongr := soilDepthLayers_congr soil_depth ts (pre ++ m' :: post)
    (pre ++ m :: post) 0 (by simp)
  cases hls : soilDepthLayers soil_depth ts 0 (pre ++ m :: post) with
  | none => rw [cal_subsurface_flow_depth, hls] at hx; simp at hx
  | some ls =>
    rw [cal_subsurface_flow_depth, hls] at hx
    rw [cal_subsurface_flow_depth, hcongr, hls] at hx'
    simp only [Option.map_some', Option.some.injEq] at hx hx'
    subst hx
    subst hx'
    exact water_sum_mono p hp (pre ++ m :: post) (pre ++ m' :: post) ls
      (forall₂_pointwise_append pre post m m' hm)
      (soilDepthLayers_nonneg soil_depth hts _ 0 ls hls) c

/-- Witness for claim C8 at a concrete input: single cell, soil depth 1,
thresholds `[0, 1]`, porosity 0.5, moisture raised from 0 to 1, output
rising from 0 to 2. -/
theorem claim_C8_witness : (0:ℚ) ≤ 2 :=
  claim_C8_flow_monotone_in_moisture (fun _ : Unit => 1) [] [] (fun _ => 0)
    (fun _ => 1) [0, 1] (1/2) (by norm_num) (by norm_num) (fun c => by norm_num)
    () 0 2
    (by norm_num [cal_subsurface_flow_depth, soilDepthLayers, layerThicknessRaster, soilLayer])
    (by norm_num [cal_subsurface_flow_depth, soilDepthLayers, layerThicknessRaster, soilLayer])

/-- Claim C10: the loop of `cal_subsurface_flow_depth` reads
`layer_threshold[i + 1]` for every layer `i` of the moisture stack, so
an input whose moisture stack has at least as many layers as there are
thresholds (here one layer against the single-entry threshold list
`[0]`) makes the access go out of bounds and no result is returned; and
the function does return a result whenever
`len(soil_water_layer) ≤ len(layer_threshold) - 1`. -/
theorem claim_C10_threshold_index_bound :
    cal_subsurface_flow_depth (fun _ : Unit => 1) [fun _ => 1/5] [0] (1/2) = none ∧
    ∀ (Cell : Type) (soil_depth : Cell → ℚ) (stack : List (Cell → ℚ))
      (ts : List ℚ) (p : ℚ), stack.length ≤ ts.length - 1 →
      (cal_subsurface_flow_depth soil_depth stack ts p).isSome = true := by
  constructor
  · rfl
  · intro Cell soil_depth stack ts p hlen
    cases stack with
    | nil => simp [cal_subsurface_flow_depth, soilDepthLayers]
    | cons w rest =>
      simp only [List.length_cons] at hlen
      simp only [cal_subsurface_flow_depth, Option.isSome_map']
      exact soilDepthLayers_isSome soil_depth ts (w :: rest) 0 (by simp; omega)

/-- Witness for claim C10's totality part at a concrete in-bounds input:
one moisture layer against the two-entry threshold list `[0, 1]`. -/
theorem claim_C10_witness :
    (cal_subsurface_flow_depth (fun _ : Unit => 1) [fun _ => 1/5] [0, 1]
      (1/2)).isSome = true :=
  claim_C10_threshold_index_bound.2 Unit (fun _ => 1) [fun _ => 1/5] [0, 1]
    (1/2) (by norm_num)

/-- Claim C1: at every cell with positive soil depth and non-vanishing
sine of the slope angle, `cal_safety_factor` returns exactly the
infinite-slope formula, with the relative wetness `flow / depth` used
unclamped; and at the worked example (slope π/4, flow depth 0.2, soil
depth 1, zero cohesions, bulk density 1300, water density 1000,
g = 9.806, friction angle 35°) the result equals
`cos(π/4) · tan(35°) · (1 - 0.2·1000/1300) / sin(π/4)`. -/
theorem claim_C1_safety_factor_formula {Cell : Type}
    (slope flow depth : Cell → ℝ) (rc sc bd wd g fa : ℝ) (c : Cell)
    (h1 : 0 < depth c) (h2 : Real.sin (slope c) ≠ 0) :
    cal_safety_factor slope flow depth rc sc bd wd g fa c =
      (rc + sc) / (depth c * bd * g) / Real.sin (slope c) +
        Real.cos (slope c) * Real.tan (fa * Real.pi / 180) *
          (1 - flow c / depth c * wd / bd) / Real.sin (slope c) ∧
    cal_safety_factor (fun _ => Real.pi / 4) (fun _ => 0.2) (fun _ => 1)
        0 0 1300 1000 9.806 35 c =
      Real.cos (Real.pi / 4) * Real.tan (35 * Real.pi / 180) *
        (1 - 0.2 * 1000 / 1300) / Real.sin (Real.pi / 4) := by
  refine ⟨rfl, ?_⟩
  simp only [cal_safety_factor]
  norm_num

/-- Witness for claim C1 at the worked example itself. -/
theorem claim_C1_witness :
    (0:ℝ) < 1 ∧ Real.sin (Real.pi / 4) ≠ 0 ∧
    cal_safety_factor (fun _ : Unit => Real.pi / 4) (fun _ => 0.2) (fun _ => 1)
        0 0 1300 1000 9.806 35 () =
      Real.cos (Real.pi / 4) * Real.tan (35 * Real.pi / 180) *
        (1 - 0.2 * 1000 / 1300) / Real.sin (Real.pi / 4) := by
  have hsin : (0:ℝ) < Real.sin (Real.pi / 4) := by
    rw [Real.sin_pi_div_four]; positivity
  exact ⟨one_pos, hsin.ne',
    (claim_C1_safety_factor_formula (fun _ : Unit => Real.pi / 4) (fun _ => 0.2)
      (fun _ => 1) 0 0 1300 1000 9.806 35 () one_pos hsin.ne').2⟩

/-- Claim C9: at every cell with positive soil depth, positive sine and
non-negative cosine of the slope angle, positive bulk and water
densities, and friction angle strictly between 0 and 90 degrees, the
safety factor is monotonically non-increasing in the subsurface flow
depth: more water never increases the predicted stability. -/
theorem claim_C9_fs_monotone_in_flow {Cell : Type}
    (slope flow1 flow2 depth : Cell → ℝ) (rc sc bd wd g fa : ℝ) (c : Cell)
    (hdep : 0 < depth c) (hsin : 0 < Real.sin (slope c))
    (hcos : 0 ≤ Real.cos (slope c)) (hbd : 0 < bd) (hwd : 0 < wd)
    (hfa0 : 0 < fa) (hfa1 : fa < 90) (hflow : flow1 c ≤ flow2 c) :
    cal_safety_factor slope flow2 depth rc sc bd wd g fa c ≤
      cal_safety_factor slope flow1 depth rc sc bd wd g fa c := by
  have htan : 0 < Real.tan (fa * Real.pi / 180) := by
    apply Real.tan_pos_of_pos_of_lt_pi_div_two
    · positivity
    · nlinarith [Real.pi_pos, mul_lt_mul_of_pos_right hfa1 Real.pi_pos]
  have hx : flow1 c / depth c * wd / bd ≤ flow2 c / depth c * wd / bd := by
    rw [div_le_div_iff_of_pos_right hbd]
    apply mul_le_mul_of_nonneg_right _ hwd.le
    rw [div_le_div_iff_of_pos_right hdep]
    exact hflow
  have hnn : 0 ≤ Real.cos (slope c) * Real.tan (fa * Real.pi / 180) :=
    mul_nonneg hcos htan.le
  have key : Real.cos (slope c) * Real.tan (fa * Real.pi / 180) *
      (1 - flow2 c / depth c * wd / bd) / Real.sin (slope c) ≤
      Real.cos (slope c) * Real.tan (fa * Real.pi / 180) *
      (1 - flow1 c / depth c * wd / bd) / Real.sin (slope c) := by
    rw [div_le_div_iff_of_pos_right hsin]
    exact mul_le_mul_of_nonneg_left (by linarith) hnn
  simp only [cal_safety_factor]
  linarith

/-- Witness for claim C9 at a concrete input: slope π/4, soil depth 1,
default material parameters, flow depth raised from 0 to 1. -/
theorem claim_C9_witness :
    cal_safety_factor (fun _ : Unit => Real.pi / 4) (fun _ => 1) (fun _ => 1)
        5000 5000 1300 1000 9.806 35 () ≤
      cal_safety_factor (fun _ : Unit => Real.pi / 4) (fun _ => 0) (fun _ => 1)
        5000 5000 1300 1000 9.806 35 () := by
  have hsin : (0:ℝ) < Real.sin (Real.pi / 4) := by
    rw [Real.sin_pi_div_four]; positivity
  have hcos : (0:ℝ) ≤ Real.cos (Real.pi / 4) := by
    rw [Real.cos_pi_div_four]; positivity
  exact claim_C9_fs_monotone_in_flow (fun _ : Unit => Real.pi / 4) (fun _ => 0)
    (fun _ => 1) (fun _ => 1) 5000 5000 1300 1000 9.806 35 () one_pos hsin hcos
    (by norm_num) (by norm_num) (by norm_num) (by norm_num) (by norm_num)

/-- Counterexample to claim C5: the source of `cal_safety_factor`
contains no validation and no raise statement, so at a cell with
`soil_depth = 0` (here with slope π/2, zero flow depth, and the Python
default material parameters) it does not fail before producing output:
it evaluates the formula and returns a raster.  In this exact-arithmetic
embedding, where division by zero yields 0, the returned cell value is 0
(the IEEE evaluation of the same source produces non-finite values, not
an error). -/
theorem claim_C5_counterexample :
    cal_safety_factor (fun _ : Unit => Real.pi / 2) (fun _ => 0) (fun _ => 0)
      5000 5000 1300 1000 9.806 35 () = 0 := by
  norm_num [cal_safety_factor, Real.cos_pi_div_two, Real.sin_pi_div_two]

/-- Amended claim C5: `cal_safety_factor` performs no domain validation
and never raises: at every cell whose soil depth is 0 it still evaluates
the formula and returns a value — under the embedding's convention that
division by zero is 0, that value is `cos(θ) · tan(φ·π/180) / sin(θ)`
(the cohesion and wetness terms collapse), rather than a DomainError. -/
theorem claim_C5_amended_no_domain_check {Cell : Type}
    (slope flow : Cell → ℝ) (rc sc bd wd g fa : ℝ) (c : Cell) :
    cal_safety_factor slope flow (fun _ => 0) rc sc bd wd g fa c =
      Real.cos (slope c) * Real.tan (fa * Real.pi / 180) / Real.sin (slope c) := by
  simp [cal_safety_factor]

/-- Counterexample to claim C6: `cal_subsurface_flow_depth` performs no
validation, so with the non-monotonic threshold list `[0, 1, 0.5]` the
computation proceeds and returns a raster (value 2 at the single cell
with soil depth 2, two saturated layers, porosity 0.5), rather than
failing with a DomainError. -/
theorem claim_C6_counterexample :
    (cal_subsurface_flow_depth (fun _ : Unit => 2) [fun _ => 1, fun _ => 1]
      [0, 1, 1/2] (1/2)).map (fun r => r ()) = some 2 := by
  norm_num [cal_subsurface_flow_depth, soilDepthLayers, layerThicknessRaster, soilLayer]

/-- Amended claim C6: `cal_subsurface_flow_depth` validates nothing —
not threshold monotonicity, not the stack length, not raster shapes.
With the non-monotonic thresholds `[0, 1, 0.5]` it always produces a
result for a two-layer stack; the only way it fails to return is the
out-of-range threshold index of claim C10 (a Python IndexError, not a
DomainError). -/
theorem claim_C6_amended_no_validation {Cell : Type} (soil_depth : Cell → ℚ)
    (m1 m2 : Cell → ℚ) (porosity : ℚ) :
    (cal_subsurface_flow_depth soil_depth [m1, m2] [0, 1, 1/2]
      porosity).isSome = true := rfl
